import Mathlib

/-
Verification development for the execute-classify-report pipeline of
bugfinder.py: the function analyze_code (lines 66-110), the static table
ERROR_EXPLANATIONS (lines 11-36), the input guard, the stdout redirection,
and the traceback line-number scrape.

The dynamically executed Python text is embedded as a small statement
language (MiniPy) whose interpreter reproduces the scoping semantics of
the call exec(code, dict(), local_vars) used at line 81 of the source:
two separate dictionaries are passed, so top-level bindings go to the
locals mapping while names referenced inside a function body are resolved
in the globals mapping only (plus builtins).  This is the documented
behaviour of the host language for exec with distinct globals and locals
arguments.  Machine-level details (floats, the real builtins table,
attribute access) are outside the fragment the claims exercise.
-/

namespace BugFinder

/-- Expressions of the embedded dynamic-language fragment. -/
inductive Expr
  | elit (n : Int)
  | estr (s : String)
  | evar (x : String)
  | ediv (a b : Expr)
  | ecall (f : Expr)

/-- Statements of the embedded fragment.  Each carries its 1-based source
line within the submitted text, which the host traceback reports. -/
inductive Stmt
  | sexpr (line : Nat) (e : Expr)
  | sdef (line : Nat) (fname : String) (body : List Stmt)
  | sraise (line : Nat) (ename emsg : String)
  | sprint (line : Nat) (e : Expr)
  | sstderrWrite (line : Nat) (txt : String)

/-- Write events emitted by the executed text: a write to whatever the
process stdout binding currently is, or a write to the stderr binding. -/
inductive Ev
  | out (s : String)
  | err (s : String)
  deriving DecidableEq

/-- A raised host failure: its runtime type name, its message, and the
frame stack (outermost first) as (line, frame label) pairs, which is what
the formatted traceback lists for code executed from a string. -/
structure Raised where
  ename : String
  emsg : String
  stack : List (Nat × String)
  deriving DecidableEq

/-- Outcome of running embedded code: normal completion or a raise. -/
inductive Outcome (α : Type)
  | ok (v : α)
  | raised (r : Raised)
  deriving DecidableEq

/-- Runtime values of the fragment. -/
inductive Value
  | vint (n : Int)
  | vstr (s : String)
  | vfunc (body : List Stmt)
  | vnone

/-- Variable environment of one exec call: the globals mapping, the
exec-locals mapping, and (when inside a function call) the frame locals.
exec(code, dict(), local_vars) starts with glob and loc both empty. -/
structure Env where
  glob : List (String × Value)
  loc : List (String × Value)
  fr : Option (List (String × Value))

/-- Result of running embedded code: final environment, ordered write
events, and the outcome. -/
abbrev ExR (α : Type) := Env × List Ev × Outcome α

/-- Name lookup.  Inside a function frame the host resolves frame locals
then globals; the exec-locals dictionary is not consulted, which is the
decisive consequence of passing two distinct dictionaries to exec.  At
top level with two dictionaries: locals then globals.  With a single
dictionary (md = false, the one-dict semantics) top level uses globals. -/
def lookupVar (md : Bool) (st : Env) (x : String) : Option Value :=
  match st.fr with
  | some fl => (List.lookup x fl).orElse (fun _ => List.lookup x st.glob)
  | none =>
      if md then (List.lookup x st.loc).orElse (fun _ => List.lookup x st.glob)
      else List.lookup x st.glob

/-- Binding: a def inside a function binds into the frame locals; at top
level it binds into exec-locals (two-dict mode) or globals (one-dict). -/
def bindVar (md : Bool) (st : Env) (x : String) (v : Value) : Env :=
  match st.fr with
  | some fl => ⟨st.glob, st.loc, some ((x, v) :: fl)⟩
  | none =>
      if md then ⟨st.glob, (x, v) :: st.loc, none⟩
      else ⟨(x, v) :: st.glob, st.loc, none⟩

/-- Host stringification used by print. -/
def strOfValue : Value → String
  | .vint n => toString n
  | .vstr s => s
  | .vfunc _ => "<function>"
  | .vnone => "None"

/-- Frame label a call contributes to the traceback. -/
def calleeLabelOf : Expr → String
  | .evar x => x
  | _ => "<anonymous>"

/-- Evaluate one expression at a given source line inside frame flabel.
deeper runs a function body one call-depth lower; a raise propagating out
of a call gets the call site prepended to its frame stack. -/
def stepExpr (md : Bool)
    (deeper : Nat → String → List Stmt → Env → ExR Unit)
    (flabel : String) (line : Nat) : Expr → Env → ExR Value
  | .elit n, st => (st, [], .ok (.vint n))
  | .estr s, st => (st, [], .ok (.vstr s))
  | .evar x, st =>
      match lookupVar md st x with
      | some v => (st, [], .ok v)
      | none =>
          (st, [], .raised
            ⟨"NameError", "name \x27" ++ x ++ "\x27 is not defined", [(line, flabel)]⟩)
  | .ediv a b, st =>
      match stepExpr md deeper flabel line a st with
      | (st1, e1, .raised r) => (st1, e1, .raised r)
      | (st1, e1, .ok va) =>
        match stepExpr md deeper flabel line b st1 with
        | (st2, e2, .raised r) => (st2, e1 ++ e2, .raised r)
        | (st2, e2, .ok vb) =>
          match va, vb with
          | .vint na, .vint nb =>
              if nb = 0 then
                (st2, e1 ++ e2, .raised
                  ⟨"ZeroDivisionError", "division by zero", [(line, flabel)]⟩)
              else (st2, e1 ++ e2, .ok (.vint (na / nb)))
          | _, _ =>
              (st2, e1 ++ e2, .raised
                ⟨"TypeError", "unsupported operand type(s) for /", [(line, flabel)]⟩)
  | .ecall f, st =>
      match stepExpr md deeper flabel line f st with
      | (st1, e1, .raised r) => (st1, e1, .raised r)
      | (st1, e1, .ok (.vfunc body)) =>
          match deeper line (calleeLabelOf f) body st1 with
          | (st2, e2, .ok _) => (st2, e1 ++ e2, .ok .vnone)
          | (st2, e2, .raised r) =>
              (st2, e1 ++ e2, .raised ⟨r.ename, r.emsg, (line, flabel) :: r.stack⟩)
      | (st1, e1, .ok _) =>
          (st1, e1, .raised ⟨"TypeError", "object is not callable", [(line, flabel)]⟩)

/-- Execute one statement. -/
def stepStmt (md : Bool)
    (deeper : Nat → String → List Stmt → Env → ExR Unit)
    (flabel : String) : Stmt → Env → ExR Unit
  | .sexpr line e, st =>
      match stepExpr md deeper flabel line e st with
      | (st1, e1, .ok _) => (st1, e1, .ok ())
      | (st1, e1, .raised r) => (st1, e1, .raised r)
  | .sdef _ f body, st => (bindVar md st f (.vfunc body), [], .ok ())
  | .sraise line n m, st => (st, [], .raised ⟨n, m, [(line, flabel)]⟩)
  | .sprint line e, st =>
      match stepExpr md deeper flabel line e st with
      | (st1, e1, .ok v) => (st1, e1 ++ [Ev.out (strOfValue v ++ "\n")], .ok ())
      | (st1, e1, .raised r) => (st1, e1, .raised r)
  | .sstderrWrite _ txt, st => (st, [Ev.err txt], .ok ())

/-- Execute a statement sequence, stopping at the first raise. -/
def stepStmts (md : Bool)
    (deeper : Nat → String → List Stmt → Env → ExR Unit)
    (flabel : String) : List Stmt → Env → ExR Unit
  | [], st => (st, [], .ok ())
  | s :: rest, st =>
      match stepStmt md deeper flabel s st with
      | (st1, e1, .ok _) =>
          match stepStmts md deeper flabel rest st1 with
          | (st2, e2, r) => (st2, e1 ++ e2, r)
      | (st1, e1, .raised r) => (st1, e1, .raised r)

/-- Message of the host recursion-limit failure. -/
def recLimitMsg : String := "maximum recursion depth exceeded"

/-- Run statements with a remaining call-depth budget: when the budget is
exhausted, any further call raises RecursionError, exactly the host
behaviour at its recursion limit.  A call runs the body in a fresh frame
one level deeper and restores the caller frame afterwards. -/
def runStmts (md : Bool) : Nat → List Stmt → String → Env → ExR Unit
  | 0, l, flabel, st =>
      stepStmts md
        (fun callLine lbl _ st0 =>
          (st0, [], .raised ⟨"RecursionError", recLimitMsg, [(callLine, lbl)]⟩))
        flabel l st
  | d + 1, l, flabel, st =>
      stepStmts md
        (fun _ lbl body st0 =>
          match runStmts md d body lbl ⟨st0.glob, st0.loc, some []⟩ with
          | (st1, e1, r) => (⟨st1.glob, st1.loc, st0.fr⟩, e1, r))
        flabel l st

/-- Host recursion limit modelled as the depth budget. -/
def execLimit : Nat := 1000

/-- Fresh environment of one exec(code, dict(), local_vars) call. -/
def env0 : Env := ⟨[], [], none⟩

/-- Label of the top-level frame in a formatted traceback. -/
def moduleLabel : String := "<module>"

/-- The execution performed at line 81 of the source:
exec(code, dict(), local_vars) with two distinct fresh dictionaries. -/
def pyExec (prog : List Stmt) : ExR Unit :=
  runStmts true execLimit prog moduleLabel env0

/-- Destinations a process stream binding can point at: the real stdout
device, the real stderr device, or the in-memory capture buffer that
analyze_code allocates at line 79. -/
inductive Sink
  | soutDev
  | serrDev
  | scapture
  deriving DecidableEq

/-- Process stream state: the current sys.stdout and sys.stderr bindings
and the accumulated contents of the two devices and the capture buffer. -/
structure Sys where
  sout : Sink
  serr : Sink
  outDev : String
  errDev : String
  buf : String
  deriving DecidableEq

/-- Append text to the stream a sink designates. -/
def writeSink (sys : Sys) (k : Sink) (txt : String) : Sys :=
  match k with
  | .soutDev => ⟨sys.sout, sys.serr, sys.outDev ++ txt, sys.errDev, sys.buf⟩
  | .serrDev => ⟨sys.sout, sys.serr, sys.outDev, sys.errDev ++ txt, sys.buf⟩
  | .scapture => ⟨sys.sout, sys.serr, sys.outDev, sys.errDev, sys.buf ++ txt⟩

/-- Deliver one write event through the current stream bindings. -/
def routeEv (sys : Sys) (ev : Ev) : Sys :=
  match ev with
  | .out s => writeSink sys sys.sout s
  | .err s => writeSink sys sys.serr s

/-- Deliver a sequence of write events in order. -/
def routeEvents (sys : Sys) (evs : List Ev) : Sys :=
  match evs with
  | [] => sys
  | e :: rest => routeEvents (routeEv sys e) rest

/-- Concatenation of a list of strings. -/
def concatAll : List String → String
  | [] => ""
  | s :: rest => s ++ concatAll rest

/-- Text the executed code wrote to the stdout binding, in order. -/
def outText (evs : List Ev) : String :=
  concatAll (evs.filterMap (fun e => match e with
    | Ev.out s => some s
    | Ev.err _ => none))

/-- Text the executed code wrote to the stderr binding, in order. -/
def errText (evs : List Ev) : String :=
  concatAll (evs.filterMap (fun e => match e with
    | Ev.out _ => none
    | Ev.err s => some s))

/-- Whitespace characters removed by the host strip() on each end. -/
def pySpace (c : Char) : Bool :=
  c = ' ' || c = '\t' || c = '\n' || c = '\r' || c = '\x0b' || c = '\x0c'

/-- The host strip(): drop surrounding whitespace from both ends. -/
def pyStrip (s : String) : String :=
  String.mk (((s.toList.dropWhile pySpace).reverse.dropWhile pySpace).reverse)

/-- Placeholder hint text of the input surface (source line 54). -/
def code_placeholder : String :=
  "# Write your Python code here...\n# Example:\n# print(\x27Hello World\x27)"

/-- Static classification table ERROR_EXPLANATIONS (source lines 11-36),
keyed by the runtime type name of the caught failure. -/
def ERROR_EXPLANATIONS : List (String × String) :=
  [("SyntaxError",
      "🧠 This usually happens due to missing colons, wrong indentation, or incorrect syntax."),
   ("IndentationError",
      "🔧 Check your indentation. Python is sensitive to spaces and tabs!"),
   ("NameError",
      "🔍 You\x27re using a variable or function that hasn\x27t been defined yet."),
   ("TypeError",
      "🛠 You\x27re using a function or operator on the wrong data type."),
   ("ZeroDivisionError",
      "⚠ You tried to divide by zero – which is undefined."),
   ("IndexError",
      "📦 You\x27re trying to access an index that doesn\x27t exist in a list or string."),
   ("ValueError",
      "❗ You\x27re passing a value to a function that is of the correct type but inappropriate."),
   ("AttributeError",
      "🔑 You\x27re trying to access an attribute or method that doesn\x27t exist for that object."),
   ("KeyError",
      "🗝 You\x27re trying to access a dictionary key that doesn\x27t exist."),
   ("ImportError",
      "📦 Python can\x27t find the module you\x27re trying to import."),
   ("ModuleNotFoundError",
      "📦 Python can\x27t find the module you\x27re trying to import."),
   ("FileNotFoundError",
      "📁 The file you\x27re trying to access does not exist."),
   ("OSError",
      "💾 An operating system error occurred (file, directory, permissions, etc)."),
   ("RuntimeError",
      "🏃‍♂️ An error that doesn\x27t fall into other categories. Check your logic."),
   ("RecursionError",
      "🔁 Your function called itself too many times (infinite recursion?)."),
   ("MemoryError",
      "💾 Your code tried to use more memory than is available."),
   ("OverflowError",
      "🔢 A number is too large to be represented."),
   ("StopIteration",
      "🛑 An iterator has no more items."),
   ("AssertionError",
      "❗ An assert statement failed."),
   ("PermissionError",
      "🚫 You don\x27t have permission to perform this action."),
   ("EOFError",
      "📚 End Of File reached unexpectedly (e.g., input() got no data)."),
   ("FloatingPointError",
      "⚠ A floating point calculation failed."),
   ("NotImplementedError",
      "🚧 This feature isn\x27t implemented yet."),
   ("SystemExit",
      "🚪 The code tried to exit Python.")]

/-- Fallback explanation for a failure type that has no table entry. -/
def fallbackText : String := "😕 This error type is currently not explained."

/-- Message the guard branch renders (source line 72). -/
def invalidText : String := "⚠ Please enter valid Python code to analyze.\n"

/-- The handler at line 92 is except Exception: it catches a raised
failure exactly when its class derives from Exception.  The host classes
that derive only from BaseException are SystemExit, KeyboardInterrupt and
GeneratorExit; every other failure name the fragment can raise denotes an
Exception subclass. -/
def isExcClass (n : String) : Bool :=
  !(n == "SystemExit" || n == "KeyboardInterrupt" || n == "GeneratorExit")

/-- Fixed prefix of the formatted trace: the header line and the frame of
analyze_code itself, in which the exec call sits. -/
def tracePrefix : String :=
  "Traceback (most recent call last):\n  File \"bugfinder.py\", line 81, in analyze_code\n    exec(code, \x7b\x7d, local_vars)\n"

/-- One frame entry of the trace for code executed from a string: the
host substitutes the fixed sentinel <string> for the missing file name. -/
def frameLine (p : Nat × String) : String :=
  "  File \"<string>\", line " ++ toString p.1 ++ ", in " ++ p.2 ++ "\n"

/-- Model of traceback.format_exc() (source line 96) for a failure raised
by the executed string: header, the analyze_code frame, one entry per
frame of the executed code (outermost first), then the failure line. -/
def pyFormatExc (r : Raised) : String :=
  tracePrefix ++ concatAll (r.stack.map frameLine) ++ r.ename ++ ": " ++ r.emsg ++ "\n"

/-- Characters of the literal part of the scrape pattern of source line
98, the regular expression File "<string>", line (\d+). -/
def marker : List Char :=
  String.toList "File \"<string>\", line "

/-- Numeric value of a digit string. -/
def digitsVal (l : List Char) : Nat :=
  l.foldl (fun a c => a * 10 + (c.toNat - 48)) 0

/-- Match the (\d+) group right after the literal: at least one digit,
then the maximal digit run. -/
def matchDigits (l : List Char) : Option Nat :=
  match l with
  | [] => none
  | c :: _ => if c.isDigit then some (digitsVal (l.takeWhile Char.isDigit)) else none

/-- re.search of the pattern: the first position where the literal is
followed by at least one digit wins, and the maximal digit run there is
the captured group. -/
def findMarker : List Char → Option Nat
  | [] => none
  | c :: rest =>
      if marker.isPrefixOf (c :: rest) then
        match matchDigits (List.drop marker.length (c :: rest)) with
        | some n => some n
        | none => findMarker rest
      else findMarker rest

/-- Report status: the three outcomes the pipeline can render. -/
inductive Status
  | ok
  | err
  | invalid
  deriving DecidableEq

/-- Structured content of one pipeline report: the status, the fields the
spec names, and the exact text block the pipeline renders. -/
structure Report where
  status : Status
  capturedOutput : Option String
  failureCategory : Option String
  failureMessage : Option String
  sourceLine : Option String
  explanation : Option String
  rendered : String
  deriving DecidableEq

/-- A submitted text together with its parse into the fragment; the raw
string feeds the guard, the parsed form feeds exec. -/
structure SourceText where
  raw : String
  parsed : List Stmt

/-- Result of one analyze_code call: either it returns having rendered a
report, or a raised failure the except clause does not match propagates
out of the function to the caller. -/
inductive AnalyzeResult
  | returned (rep : Report) (sys : Sys)
  | propagated (ename emsg : String) (sys : Sys)
  deriving DecidableEq

/-- The report of the guard branch. -/
def invalidReport : Report :=
  ⟨.invalid, none, none, none, none, none, invalidText⟩

/-- Success rendering (source lines 85-87). -/
def successRendered (output_text : String) : String :=
  "✅ Code executed successfully!\n" ++
    (if pyStrip output_text = "" then "" else "\n📤 Output:\n" ++ output_text)

/-- Failure rendering (source lines 103-105). -/
def failureRendered (ename lineStr emsg expl : String) : String :=
  "❌ Error: " ++ ename ++ " on line " ++ lineStr ++ "\n" ++
    "📌 Message: " ++ emsg ++ "\n" ++
    "💡 Explanation: " ++ expl ++ "\n"

/-- Embedding of analyze_code (source lines 66-110).  The guard (line
71) runs before any stream effect.  Otherwise sys.stdout is rebound to a
fresh empty capture buffer (line 79), the text is executed (line 81), and
its writes are delivered through the current bindings.  On normal
completion stdout is restored (line 82) and a success report rendered; on
a raise matched by except Exception (line 92) stdout is restored (line
93), the failure is classified by its runtime type name and the trace is
scraped for the line number; a raise not matched by the except clause
propagates out with stdout still bound to the buffer. -/
def analyze_code (src : SourceText) (sys0 : Sys) : AnalyzeResult :=
  if pyStrip src.raw = "" ∨ pyStrip src.raw = pyStrip code_placeholder then
    .returned invalidReport sys0
  else
    let old := sys0.sout
    let sys1 : Sys := ⟨Sink.scapture, sys0.serr, sys0.outDev, sys0.errDev, ""⟩
    match pyExec src.parsed with
    | (_, evs, outc) =>
      let sys2 := routeEvents sys1 evs
      match outc with
      | .ok _ =>
          let sys3 : Sys := ⟨old, sys2.serr, sys2.outDev, sys2.errDev, sys2.buf⟩
          let output_text := sys2.buf
          .returned
            ⟨.ok, some output_text, none, none, none, none, successRendered output_text⟩
            sys3
      | .raised r =>
          if isExcClass r.ename then
            let sys3 : Sys := ⟨old, sys2.serr, sys2.outDev, sys2.errDev, sys2.buf⟩
            let tb := pyFormatExc r
            let lineStr :=
              match findMarker tb.toList with
              | some n => toString n
              | none => "?"
            let expl := (List.lookup r.ename ERROR_EXPLANATIONS).getD fallbackText
            .returned
              ⟨.err, none, some r.ename, some r.emsg, some lineStr, some expl,
                failureRendered r.ename lineStr r.emsg expl⟩
              sys3
          else
            .propagated r.ename r.emsg sys2

/-- Report of a result, when the call returned. -/
def resultReport : AnalyzeResult → Option Report
  | .returned rep _ => some rep
  | .propagated _ _ _ => none

/-- Stream state when the call finishes, on either exit path. -/
def resultSys : AnalyzeResult → Sys
  | .returned _ s => s
  | .propagated _ _ s => s

/-- Raised failure of the exec step of a source, when there is one. -/
def execRaised (src : SourceText) : Option Raised :=
  match pyExec src.parsed with
  | (_, _, .raised r) => some r
  | (_, _, .ok _) => none

/-- Write events the exec step of a source emits. -/
def eventsOf (src : SourceText) : List Ev :=
  match pyExec src.parsed with
  | (_, evs, _) => evs

/-- Runtime type name of a raised outcome, when it is one. -/
def outcomeName {α : Type} : Outcome α → Option String
  | .ok _ => none
  | .raised r => some r.ename

/-- The pattern of source line 98 occurs at position i of the trace: the
literal is there, followed by at least one digit. -/
def markerAt (l : List Char) (i : Nat) : Prop :=
  marker.isPrefixOf (List.drop i l) = true ∧
    ∃ c, (List.drop (i + marker.length) l).head? = some c ∧ c.isDigit = true

/-- Captured group of an occurrence at position i: the value of the
maximal digit run right after the literal. -/
def markerVal (l : List Char) (i : Nat) : Nat :=
  digitsVal ((List.drop (i + marker.length) l).takeWhile Char.isDigit)

theorem markerAt_succ (c : Char) (l : List Char) (j : Nat) :
    markerAt (c :: l) (j + 1) ↔ markerAt l j := by
  unfold markerAt
  rw [List.drop_succ_cons, Nat.add_right_comm j 1 marker.length, List.drop_succ_cons]

theorem markerVal_succ (c : Char) (l : List Char) (j : Nat) :
    markerVal (c :: l) (j + 1) = markerVal l j := by
  unfold markerVal
  rw [Nat.add_right_comm j 1 marker.length, List.drop_succ_cons]

theorem matchDigits_eq_some (l : List Char) (n : Nat) (h : matchDigits l = some n) :
    (∃ c, l.head? = some c ∧ c.isDigit = true) ∧
      digitsVal (l.takeWhile Char.isDigit) = n := by
  cases l with
  | nil => simp [matchDigits] at h
  | cons c rest =>
      by_cases hd : c.isDigit
      · simp only [matchDigits, hd, if_pos, Option.some.injEq] at h
        exact ⟨⟨c, rfl, hd⟩, h⟩
      · simp [matchDigits, hd] at h

theorem matchDigits_eq_none (l : List Char) (h : matchDigits l = none) :
    ∀ c, l.head? = some c → c.isDigit = false := by
  intro c hc
  cases l with
  | nil => simp at hc
  | cons d rest =>
      simp only [List.head?_cons, Option.some.injEq] at hc
      subst hc
      by_cases hd : d.isDigit = true
      · simp [matchDigits, hd] at h
      · simpa using hd

theorem findMarker_eq_some (l : List Char) (n : Nat) (h : findMarker l = some n) :
    ∃ i, markerAt l i ∧ markerVal l i = n ∧ ∀ j, j < i → ¬ markerAt l j := by
  induction l with
  | nil => simp [findMarker] at h
  | cons c rest ih =>
      unfold findMarker at h
      by_cases hp : marker.isPrefixOf (c :: rest) = true
      · rw [if_pos hp] at h
        cases hm : matchDigits (List.drop marker.length (c :: rest)) with
        | some m =>
            rw [hm] at h
            obtain ⟨⟨ch, hh, hd⟩, hv⟩ := matchDigits_eq_some _ _ hm
            injection h with h
            subst h
            refine ⟨0, ⟨by simpa using hp, ch, by simpa using hh, hd⟩, ?_, ?_⟩
            · unfold markerVal
              simpa using hv
            · intro j hj
              omega
        | none =>
            rw [hm] at h
            obtain ⟨i, h1, h2, h3⟩ := ih h
            refine ⟨i + 1, (markerAt_succ c rest i).mpr h1, ?_, ?_⟩
            · rw [markerVal_succ]
              exact h2
            · intro j hj
              cases j with
              | zero =>
                  intro hcon
                  obtain ⟨_, ch, hh, hd⟩ := hcon
                  have := matchDigits_eq_none _ hm ch (by simpa using hh)
                  rw [this] at hd
                  exact Bool.false_ne_true hd
              | succ k =>
                  rw [markerAt_succ]
                  exact h3 k (by omega)
      · rw [if_neg hp] at h
        obtain ⟨i, h1, h2, h3⟩ := ih h
        refine ⟨i + 1, (markerAt_succ c rest i).mpr h1, ?_, ?_⟩
        · rw [markerVal_succ]
          exact h2
        · intro j hj
          cases j with
          | zero =>
              intro hcon
              exact hp (by simpa using hcon.1)
          | succ k =>
              rw [markerAt_succ]
              exact h3 k (by omega)

theorem findMarker_eq_none (l : List Char) (h : findMarker l = none) :
    ∀ i, ¬ markerAt l i := by
  induction l with
  | nil =>
      intro i hcon
      obtain ⟨_, ch, hh, _⟩ := hcon
      simp at hh
  | cons c rest ih =>
      unfold findMarker at h
      by_cases hp : marker.isPrefixOf (c :: rest) = true
      · rw [if_pos hp] at h
        cases hm : matchDigits (List.drop marker.length (c :: rest)) with
        | some m => rw [hm] at h; exact absurd h (by simp)
        | none =>
            rw [hm] at h
            intro i
            cases i with
            | zero =>
                intro hcon
                obtain ⟨_, ch, hh, hd⟩ := hcon
                have := matchDigits_eq_none _ hm ch (by simpa using hh)
                rw [this] at hd
                exact Bool.false_ne_true hd
            | succ k =>
                rw [markerAt_succ]
                exact ih h k
      · rw [if_neg hp] at h
        intro i
        cases i with
        | zero =>
            intro hcon
            exact hp (by simpa using hcon.1)
        | succ k =>
            rw [markerAt_succ]
            exact ih h k

theorem routeEvents_capture (evs : List Ev) :
    ∀ sys : Sys, sys.sout = Sink.scapture → sys.serr = Sink.serrDev →
      routeEvents sys evs =
        ⟨Sink.scapture, Sink.serrDev, sys.outDev, sys.errDev ++ errText evs,
          sys.buf ++ outText evs⟩ := by
  induction evs with
  | nil =>
      intro sys h1 h2
      cases sys
      simp_all [routeEvents, outText, errText, concatAll, String.append_empty]
  | cons e rest ih =>
      intro sys h1 h2
      cases e with
      | out s =>
          show routeEvents (routeEv sys (Ev.out s)) rest = _
          rw [routeEv, h1]
          rw [show writeSink sys Sink.scapture s =
            ⟨sys.sout, sys.serr, sys.outDev, sys.errDev, sys.buf ++ s⟩ from rfl]
          rw [ih ⟨sys.sout, sys.serr, sys.outDev, sys.errDev, sys.buf ++ s⟩ h1 h2]
          simp [outText, errText, concatAll, String.append_assoc, h1, h2]
      | err s =>
          show routeEvents (routeEv sys (Ev.err s)) rest = _
          rw [routeEv, h2]
          rw [show writeSink sys Sink.serrDev s =
            ⟨sys.sout, sys.serr, sys.outDev, sys.errDev ++ s, sys.buf⟩ from rfl]
          rw [ih ⟨sys.sout, sys.serr, sys.outDev, sys.errDev ++ s, sys.buf⟩ h1 h2]
          simp [outText, errText, concatAll, String.append_assoc, h1, h2]

/-- The sourceLine the failure branch computes (source lines 98-99). -/
def sourceLineOf (r : Raised) : String :=
  match findMarker (pyFormatExc r).toList with
  | some n => toString n
  | none => "?"

/-- The explanation the failure branch computes (source line 101). -/
def explanationOf (r : Raised) : String :=
  (List.lookup r.ename ERROR_EXPLANATIONS).getD fallbackText

/-- The report the failure branch renders (source lines 94-108). -/
def failureReportOf (r : Raised) : Report :=
  ⟨Status.err, none, some r.ename, some r.emsg, some (sourceLineOf r),
    some (explanationOf r),
    failureRendered r.ename (sourceLineOf r) r.emsg (explanationOf r)⟩

theorem analyze_guard_eq (src : SourceText) (sys0 : Sys)
    (h : pyStrip src.raw = "" ∨ pyStrip src.raw = pyStrip code_placeholder) :
    analyze_code src sys0 = .returned invalidReport sys0 := by
  unfold analyze_code
  rw [if_pos h]

theorem analyze_ok_eq (src : SourceText) (sys0 : Sys) (env : Env) (evs : List Ev)
    (hg : ¬(pyStrip src.raw = "" ∨ pyStrip src.raw = pyStrip code_placeholder))
    (hserr : sys0.serr = Sink.serrDev)
    (he : pyExec src.parsed = (env, evs, Outcome.ok ())) :
    analyze_code src sys0 =
      .returned
        ⟨Status.ok, some (outText evs), none, none, none, none,
          successRendered (outText evs)⟩
        ⟨sys0.sout, Sink.serrDev, sys0.outDev, sys0.errDev ++ errText evs,
          outText evs⟩ := by
  unfold analyze_code
  rw [if_neg hg, he]
  dsimp only
  rw [routeEvents_capture evs ⟨Sink.scapture, sys0.serr, sys0.outDev, sys0.errDev, ""⟩ rfl hserr]
  dsimp only
  rw [String.empty_append]

theorem analyze_raised_exc_eq (src : SourceText) (sys0 : Sys) (env : Env)
    (evs : List Ev) (r : Raised)
    (hg : ¬(pyStrip src.raw = "" ∨ pyStrip src.raw = pyStrip code_placeholder))
    (hserr : sys0.serr = Sink.serrDev)
    (he : pyExec src.parsed = (env, evs, Outcome.raised r))
    (hx : isExcClass r.ename = true) :
    analyze_code src sys0 =
      .returned (failureReportOf r)
        ⟨sys0.sout, Sink.serrDev, sys0.outDev, sys0.errDev ++ errText evs,
          outText evs⟩ := by
  unfold analyze_code
  rw [if_neg hg, he]
  dsimp only
  rw [routeEvents_capture evs ⟨Sink.scapture, sys0.serr, sys0.outDev, sys0.errDev, ""⟩ rfl hserr]
  dsimp only
  rw [String.empty_append]
  simp only [hx, if_pos]
  rfl

theorem analyze_raised_base_eq (src : SourceText) (sys0 : Sys) (env : Env)
    (evs : List Ev) (r : Raised)
    (hg : ¬(pyStrip src.raw = "" ∨ pyStrip src.raw = pyStrip code_placeholder))
    (hserr : sys0.serr = Sink.serrDev)
    (he : pyExec src.parsed = (env, evs, Outcome.raised r))
    (hx : isExcClass r.ename = false) :
    analyze_code src sys0 =
      .propagated r.ename r.emsg
        ⟨Sink.scapture, Sink.serrDev, sys0.outDev, sys0.errDev ++ errText evs,
          outText evs⟩ := by
  unfold analyze_code
  rw [if_neg hg, he]
  dsimp only
  rw [routeEvents_capture evs ⟨Sink.scapture, sys0.serr, sys0.outDev, sys0.errDev, ""⟩ rfl hserr]
  dsimp only
  rw [String.empty_append]
  simp only [hx]
  rfl

/-- Stream state before a call: stdout and stderr bound to their real
devices, all streams empty. -/
def sys0c : Sys := ⟨Sink.soutDev, Sink.serrDev, "", "", ""⟩

/-- A second pre-call stream state with different bindings and contents. -/
def altSys : Sys := ⟨Sink.scapture, Sink.serrDev, "a", "b", "c"⟩

/-- Example 1 of the spec: print(\x27hi\x27). -/
def printSrc : SourceText :=
  ⟨"print(\x27hi\x27)", [Stmt.sprint 1 (Expr.estr "hi")]⟩

/-- Example 2 of the spec: 1/0. -/
def divSrc : SourceText :=
  ⟨"1/0", [Stmt.sexpr 1 (Expr.ediv (Expr.elit 1) (Expr.elit 0))]⟩

/-- Example 5 of the spec: a function that calls itself unconditionally,
then is invoked.  Lines: def on line 1, the self-call on line 2, the
top-level invocation on line 3. -/
def recSrc : SourceText :=
  ⟨"def f():\n    f()\nf()",
   [Stmt.sdef 1 "f" [Stmt.sexpr 2 (Expr.ecall (Expr.evar "f"))],
    Stmt.sexpr 3 (Expr.ecall (Expr.evar "f"))]⟩

/-- Text that raises the explicit-termination failure. -/
def sysExitSrc : SourceText :=
  ⟨"raise SystemExit", [Stmt.sraise 1 "SystemExit" ""]⟩

/-- Text raising a failure whose runtime type name, Exception, is not a
key of the classification table. -/
def unknownSrc : SourceText :=
  ⟨"raise Exception(\x27boom\x27)", [Stmt.sraise 1 "Exception" "boom"]⟩

/-- Text that writes to the standard-error stream and prints to the
standard-output stream. -/
def errSrc : SourceText :=
  ⟨"import sys; sys.stderr.write(\x27oops\x27)\nprint(\x27ok\x27)",
   [Stmt.sstderrWrite 1 "oops", Stmt.sprint 2 (Expr.estr "ok")]⟩

/-- The report analyze_code renders for unknownSrc. -/
def unknownReport : Report :=
  ⟨Status.err, none, some "Exception", some "boom", some "1", some fallbackText,
    failureRendered "Exception" "1" "boom" fallbackText⟩

/-- The report analyze_code renders for divSrc. -/
def divReport : Report :=
  ⟨Status.err, none, some "ZeroDivisionError", some "division by zero", some "1",
    some "⚠ You tried to divide by zero – which is undefined.",
    failureRendered "ZeroDivisionError" "1" "division by zero"
      "⚠ You tried to divide by zero – which is undefined."⟩

/-- Field discipline of a produced report: a Success report carries
captured output and no failure category, a Failure report the reverse,
an InvalidInput report neither.  A propagated failure produces no report. -/
def reportInvariant : AnalyzeResult → Prop
  | .propagated _ _ _ => True
  | .returned rep _ =>
      (rep.status = Status.ok →
        rep.capturedOutput.isSome = true ∧ rep.failureCategory = none) ∧
      (rep.status = Status.err →
        rep.failureCategory.isSome = true ∧ rep.capturedOutput = none) ∧
      (rep.status = Status.invalid →
        rep.capturedOutput = none ∧ rep.failureCategory = none)

/-- C1: the claim states that every failure raised by the executed text,
SystemExit-class included, is caught inside analyze and turned into a
Failure report, so that no failure ever propagates to the caller.  The
handler at source line 92 is except Exception, and SystemExit derives
only from BaseException, so the guarded input raise SystemExit propagates
out of analyze_code uncaught — even though the classification table has a
SystemExit entry, which is therefore unreachable from the handler. -/
theorem c1_systemexit_propagates_out_of_analyze :
    analyze_code sysExitSrc sys0c =
      AnalyzeResult.propagated "SystemExit" ""
        ⟨Sink.scapture, Sink.serrDev, "", "", ""⟩ ∧
    List.lookup "SystemExit" ERROR_EXPLANATIONS =
      some "🚪 The code tried to exit Python." ∧
    isExcClass "SystemExit" = false := by
  decide

/-- C2: the claim states that the standard-output binding is restored to
its pre-call target on every exit path of analyze.  On the input raise
SystemExit the raise is not matched by except Exception, so the function
exits without executing either restoring assignment (source lines 82 and
93): afterwards the stdout binding still points at the capture buffer,
not at the original device it pointed at before the call. -/
theorem c2_stdout_left_redirected_on_systemexit :
    sys0c.sout = Sink.soutDev ∧
    (resultSys (analyze_code sysExitSrc sys0c)).sout = Sink.scapture := by
  decide

/-- C3: the claim states that a function calling itself unconditionally,
then invoked, yields a Failure in the RecursionError class.  Because
source line 81 calls exec with two distinct dictionaries, the top-level
def binds f into the locals dictionary while the body of f resolves f in
the globals dictionary, so the self-call raises NameError instead and
that is the category the report carries. -/
theorem c3_recursive_function_reports_nameerror :
    (resultReport (analyze_code recSrc sys0c)).map Report.status =
      some Status.err ∧
    (resultReport (analyze_code recSrc sys0c)).map Report.failureCategory =
      some (some "NameError") ∧
    (resultReport (analyze_code recSrc sys0c)).map Report.failureMessage =
      some (some "name \x27f\x27 is not defined") := by
  decide

/-- Supporting fact for C3: under the single-dictionary semantics of a
standalone program body, the same program does run into the recursion
limit, confirming that the spec describes the intended behaviour and the
two-dictionary exec call is the slip. -/
theorem recsrc_single_scope_hits_recursion_limit :
    outcomeName (runStmts false 10 recSrc.parsed moduleLabel env0).2.2 =
      some "RecursionError" := by
  decide

/-- C4: for every caught failure, the report carries the exact runtime
type name of the failure as its category, and the explanation is the table
entry for that name when the name is a key of ERROR_EXPLANATIONS and the
single fixed fallback string otherwise. -/
theorem c4_failure_classification (src : SourceText) (sys0 : Sys) (rep : Report)
    (sys1 : Sys)
    (hret : analyze_code src sys0 = AnalyzeResult.returned rep sys1)
    (hst : rep.status = Status.err) :
    ∃ r, execRaised src = some r ∧
      rep.failureCategory = some r.ename ∧
      rep.explanation =
        some ((List.lookup r.ename ERROR_EXPLANATIONS).getD fallbackText) ∧
      (∀ s, List.lookup r.ename ERROR_EXPLANATIONS = some s →
        rep.explanation = some s) ∧
      (List.lookup r.ename ERROR_EXPLANATIONS = none →
        rep.explanation = some fallbackText) ∧
      rep.rendered =
        failureRendered r.ename (sourceLineOf r) r.emsg
          ((List.lookup r.ename ERROR_EXPLANATIONS).getD fallbackText) := by
  by_cases hg : pyStrip src.raw = "" ∨ pyStrip src.raw = pyStrip code_placeholder
  · rw [analyze_guard_eq src sys0 hg] at hret
    injection hret with h1 h2
    rw [← h1] at hst
    simp [invalidReport] at hst
  · rcases he : pyExec src.parsed with ⟨env, evs, outc⟩
    unfold analyze_code at hret
    rw [if_neg hg, he] at hret
    dsimp only at hret
    cases outc with
    | ok v =>
        dsimp only at hret
        injection hret with h1 h2
        rw [← h1] at hst
        simp at hst
    | raised r =>
        dsimp only at hret
        by_cases hx : isExcClass r.ename = true
        · rw [if_pos hx] at hret
          injection hret with h1 h2
          refine ⟨r, ?_, ?_, ?_, ?_, ?_, ?_⟩
          · unfold execRaised
            rw [he]
          · rw [← h1]
          · rw [← h1]
          · intro s hs
            rw [← h1]
            simp [hs]
          · intro hnone
            rw [← h1]
            simp [hnone]
          · rw [← h1]
            dsimp only
            unfold sourceLineOf
            cases hf : findMarker (pyFormatExc r).toList <;> rfl
        · rw [if_neg hx] at hret
          exact (AnalyzeResult.noConfusion hret)

/-- Witness for C4: the input raise Exception produces a caught failure
whose type name Exception is not a table key, and the report shows that
name as category and the fallback explanation. -/
theorem c4_witness :
    ∃ r, execRaised unknownSrc = some r ∧
      unknownReport.failureCategory = some r.ename ∧
      unknownReport.explanation =
        some ((List.lookup r.ename ERROR_EXPLANATIONS).getD fallbackText) ∧
      (∀ s, List.lookup r.ename ERROR_EXPLANATIONS = some s →
        unknownReport.explanation = some s) ∧
      (List.lookup r.ename ERROR_EXPLANATIONS = none →
        unknownReport.explanation = some fallbackText) ∧
      unknownReport.rendered =
        failureRendered r.ename (sourceLineOf r) r.emsg
          ((List.lookup r.ename ERROR_EXPLANATIONS).getD fallbackText) :=
  c4_failure_classification unknownSrc sys0c unknownReport sys0c
    (by decide) (by decide)

/-- C5: for every caught failure, sourceLine is the captured line number
of the first occurrence of the pattern File "<string>", line N in the
formatted trace, and the ? placeholder when no occurrence exists; the
input 1/0 yields category ZeroDivisionError and sourceLine 1. -/
theorem c5_sourceline_is_first_marker_occurrence :
    (∀ (src : SourceText) (sys0 : Sys) (rep : Report) (sys1 : Sys),
        analyze_code src sys0 = AnalyzeResult.returned rep sys1 →
        rep.status = Status.err →
        ∃ r, execRaised src = some r ∧
          ((rep.sourceLine = some "?" ∧
              ∀ i, ¬ markerAt (pyFormatExc r).toList i) ∨
            (∃ n i, rep.sourceLine = some (toString n) ∧
              markerAt (pyFormatExc r).toList i ∧
              markerVal (pyFormatExc r).toList i = n ∧
              ∀ j, j < i → ¬ markerAt (pyFormatExc r).toList j))) ∧
    (resultReport (analyze_code divSrc sys0c)).map Report.failureCategory =
      some (some "ZeroDivisionError") ∧
    (resultReport (analyze_code divSrc sys0c)).map Report.sourceLine =
      some (some "1") := by
  refine ⟨?_, by decide, by decide⟩
  intro src sys0 rep sys1 hret hst
  by_cases hg : pyStrip src.raw = "" ∨ pyStrip src.raw = pyStrip code_placeholder
  · rw [analyze_guard_eq src sys0 hg] at hret
    injection hret with h1 h2
    rw [← h1] at hst
    simp [invalidReport] at hst
  · rcases he : pyExec src.parsed with ⟨env, evs, outc⟩
    unfold analyze_code at hret
    rw [if_neg hg, he] at hret
    dsimp only at hret
    cases outc with
    | ok v =>
        dsimp only at hret
        injection hret with h1 h2
        rw [← h1] at hst
        simp at hst
    | raised r =>
        dsimp only at hret
        by_cases hx : isExcClass r.ename = true
        · rw [if_pos hx] at hret
          injection hret with h1 h2
          refine ⟨r, by unfold execRaised; rw [he], ?_⟩
          cases hf : findMarker (pyFormatExc r).toList with
          | none =>
              refine Or.inl ⟨?_, findMarker_eq_none _ hf⟩
              rw [← h1]
              dsimp only
              rw [hf]
          | some n =>
              obtain ⟨i, hi1, hi2, hi3⟩ := findMarker_eq_some _ _ hf
              refine Or.inr ⟨n, i, ?_, hi1, hi2, hi3⟩
              rw [← h1]
              dsimp only
              rw [hf]
        · rw [if_neg hx] at hret
          exact (AnalyzeResult.noConfusion hret)

/-- Witness for C5: the 1/0 report, whose trace has its first marker
occurrence carrying line 1. -/
theorem c5_witness :
    ∃ r, execRaised divSrc = some r ∧
      ((divReport.sourceLine = some "?" ∧
          ∀ i, ¬ markerAt (pyFormatExc r).toList i) ∨
        (∃ n i, divReport.sourceLine = some (toString n) ∧
          markerAt (pyFormatExc r).toList i ∧
          markerVal (pyFormatExc r).toList i = n ∧
          ∀ j, j < i → ¬ markerAt (pyFormatExc r).toList j)) :=
  c5_sourceline_is_first_marker_occurrence.1 divSrc sys0c divReport sys0c
    (by decide) (by decide)

/-- C6: input that is empty after trimming, or equal after trimming to
the placeholder text, is rejected immediately: the invalid-input report
is rendered and the stream state is returned untouched, whatever the
parsed text would have done — no execution, no capture, no redirect. -/
theorem c6_guard_short_circuits (raw : String) (parsed : List Stmt) (sys0 : Sys)
    (h : pyStrip raw = "" ∨ pyStrip raw = pyStrip code_placeholder) :
    analyze_code ⟨raw, parsed⟩ sys0 = AnalyzeResult.returned invalidReport sys0 :=
  analyze_guard_eq ⟨raw, parsed⟩ sys0 h

/-- Witness for C6: the empty text, a pure-whitespace text, and the
placeholder text itself (paired with a parse that would raise) are all
rejected with the stream state unchanged. -/
theorem c6_witness :
    analyze_code ⟨"", []⟩ sys0c = AnalyzeResult.returned invalidReport sys0c ∧
    analyze_code ⟨"  \n\t", []⟩ sys0c =
      AnalyzeResult.returned invalidReport sys0c ∧
    analyze_code ⟨code_placeholder, [Stmt.sraise 1 "ValueError" "x"]⟩ sys0c =
      AnalyzeResult.returned invalidReport sys0c :=
  ⟨c6_guard_short_circuits "" [] sys0c (Or.inl (by decide)),
   c6_guard_short_circuits "  \n\t" [] sys0c (Or.inl (by decide)),
   c6_guard_short_circuits code_placeholder [Stmt.sraise 1 "ValueError" "x"] sys0c
     (Or.inr rfl)⟩

/-- C7 (amended to guard-passing input, forced by the guard of source
line 71 and witnessed by the counterexample below): text that passes the
guard and executes to completion yields a Success report whose captured
output is exactly the text the executed code wrote to the stdout binding,
with stdout restored to its pre-call target; the print example captures
exactly hi plus a newline. -/
theorem c7_success_captures_exact_output :
    (∀ (src : SourceText) (sys0 : Sys) (env : Env) (evs : List Ev),
        ¬(pyStrip src.raw = "" ∨ pyStrip src.raw = pyStrip code_placeholder) →
        sys0.serr = Sink.serrDev →
        pyExec src.parsed = (env, evs, Outcome.ok ()) →
        analyze_code src sys0 =
          AnalyzeResult.returned
            ⟨Status.ok, some (outText evs), none, none, none, none,
              successRendered (outText evs)⟩
            ⟨sys0.sout, Sink.serrDev, sys0.outDev, sys0.errDev ++ errText evs,
              outText evs⟩) ∧
    (resultReport (analyze_code printSrc sys0c)).map Report.status =
      some Status.ok ∧
    (resultReport (analyze_code printSrc sys0c)).map Report.capturedOutput =
      some (some "hi
") :=
  ⟨fun src sys0 env evs hg hserr he => analyze_ok_eq src sys0 env evs hg hserr he,
   by decide, by decide⟩

/-- Counterexample for C7 as frozen: the empty text is syntactically
valid, terminates, raises no failure and writes nothing, yet analyze
returns the InvalidInput report rather than Success, because the guard
rejects it before execution. -/
theorem c7_counterexample :
    (resultReport (analyze_code ⟨"", []⟩ sys0c)).map Report.status =
      some Status.invalid ∧
    Status.invalid ≠ Status.ok := by
  decide

/-- Witness for C7: the print example evaluated concretely. -/
theorem c7_witness :
    analyze_code printSrc sys0c =
      AnalyzeResult.returned
        ⟨Status.ok, some (outText [Ev.out "hi
"]), none, none, none, none,
          successRendered (outText [Ev.out "hi
"])⟩
        ⟨Sink.soutDev, Sink.serrDev, "", "" ++ errText [Ev.out "hi
"],
          outText [Ev.out "hi
"]⟩ :=
  c7_success_captures_exact_output.1 printSrc sys0c ⟨[], [], Option.none⟩
    [Ev.out "hi
"] (by decide) rfl (by rfl)

/-- C8: every report the pipeline produces respects the field
discipline: Success carries captured output and no failure category,
Failure the reverse, InvalidInput neither. -/
theorem c8_report_field_invariant (src : SourceText) (sys0 : Sys) :
    reportInvariant (analyze_code src sys0) := by
  by_cases hg : pyStrip src.raw = "" ∨ pyStrip src.raw = pyStrip code_placeholder
  · rw [analyze_guard_eq src sys0 hg]
    simp [reportInvariant, invalidReport]
  · rcases he : pyExec src.parsed with ⟨env, evs, outc⟩
    unfold analyze_code
    rw [if_neg hg, he]
    dsimp only
    cases outc with
    | ok v => simp [reportInvariant]
    | raised r =>
        dsimp only
        by_cases hx : isExcClass r.ename = true
        · rw [if_pos hx]
          simp [reportInvariant]
        · rw [if_neg hx]
          simp [reportInvariant]

/-- Helper for C9: the produced report does not depend on the pre-call
stream state, provided stderr is bound to the real stderr device. -/
theorem analyze_report_sys_independent (src : SourceText) (s1 s2 : Sys)
    (h1 : s1.serr = Sink.serrDev) (h2 : s2.serr = Sink.serrDev) :
    resultReport (analyze_code src s1) = resultReport (analyze_code src s2) := by
  by_cases hg : pyStrip src.raw = "" ∨ pyStrip src.raw = pyStrip code_placeholder
  · rw [analyze_guard_eq src s1 hg, analyze_guard_eq src s2 hg]
    rfl
  · rcases he : pyExec src.parsed with ⟨env, evs, outc⟩
    cases outc with
    | ok v =>
        cases v
        rw [analyze_ok_eq src s1 env evs hg h1 he,
          analyze_ok_eq src s2 env evs hg h2 he]
        rfl
    | raised r =>
        by_cases hx : isExcClass r.ename = true
        · rw [analyze_raised_exc_eq src s1 env evs r hg h1 he hx,
            analyze_raised_exc_eq src s2 env evs r hg h2 he hx]
          rfl
        · have hx2 : isExcClass r.ename = false := by simpa using hx
          rw [analyze_raised_base_eq src s1 env evs r hg h1 he hx2,
            analyze_raised_base_eq src s2 env evs r hg h2 he hx2]
          rfl

/-- C9: two analyze calls with the identical input produce reports with
identical status, failure category and captured output — the executed
fragment is deterministic and the report never depends on the pre-call
stream contents. -/
theorem c9_identical_reports_on_identical_input (src : SourceText) (s1 s2 : Sys)
    (h1 : s1.serr = Sink.serrDev) (h2 : s2.serr = Sink.serrDev) :
    (resultReport (analyze_code src s1)).map Report.status =
      (resultReport (analyze_code src s2)).map Report.status ∧
    (resultReport (analyze_code src s1)).map Report.failureCategory =
      (resultReport (analyze_code src s2)).map Report.failureCategory ∧
    (resultReport (analyze_code src s1)).map Report.capturedOutput =
      (resultReport (analyze_code src s2)).map Report.capturedOutput := by
  have h := analyze_report_sys_independent src s1 s2 h1 h2
  exact ⟨by rw [h], by rw [h], by rw [h]⟩

/-- Witness for C9: the print example against two different pre-call
stream states. -/
theorem c9_witness :
    (resultReport (analyze_code printSrc sys0c)).map Report.status =
      (resultReport (analyze_code printSrc altSys)).map Report.status ∧
    (resultReport (analyze_code printSrc sys0c)).map Report.failureCategory =
      (resultReport (analyze_code printSrc altSys)).map Report.failureCategory ∧
    (resultReport (analyze_code printSrc sys0c)).map Report.capturedOutput =
      (resultReport (analyze_code printSrc altSys)).map Report.capturedOutput :=
  c9_identical_reports_on_identical_input printSrc sys0c altSys rfl rfl

/-- C10: only stdout is redirected.  The stderr binding is identical
after every call; for guarded input the stderr text of the executed code
reaches the real stderr device and the capture buffer holds exactly the
stdout text, so stderr text never enters the buffer or the report. -/
theorem c10_stderr_never_redirected_or_captured (src : SourceText) (sys0 : Sys)
    (hserr : sys0.serr = Sink.serrDev) :
    (resultSys (analyze_code src sys0)).serr = sys0.serr ∧
    (¬(pyStrip src.raw = "" ∨ pyStrip src.raw = pyStrip code_placeholder) →
      (resultSys (analyze_code src sys0)).errDev =
        sys0.errDev ++ errText (eventsOf src) ∧
      (resultSys (analyze_code src sys0)).buf = outText (eventsOf src) ∧
      ∀ rep sys1, analyze_code src sys0 = AnalyzeResult.returned rep sys1 →
        rep.capturedOutput = none ∨
          rep.capturedOutput = some (outText (eventsOf src))) := by
  by_cases hg : pyStrip src.raw = "" ∨ pyStrip src.raw = pyStrip code_placeholder
  · rw [analyze_guard_eq src sys0 hg]
    exact ⟨rfl, fun hng => absurd hg hng⟩
  · rcases he : pyExec src.parsed with ⟨env, evs, outc⟩
    have hev : eventsOf src = evs := by unfold eventsOf; rw [he]
    cases outc with
    | ok v =>
        cases v
        rw [analyze_ok_eq src sys0 env evs hg hserr he]
        constructor
        · dsimp [resultSys]
          rw [hserr]
        · intro hng
          refine ⟨?_, ?_, ?_⟩
          · dsimp [resultSys]
            rw [hev]
          · dsimp [resultSys]
            rw [hev]
          · intro rep sys1 hret
            injection hret with a b
            right
            rw [← a, hev]
    | raised r =>
        by_cases hx : isExcClass r.ename = true
        · rw [analyze_raised_exc_eq src sys0 env evs r hg hserr he hx]
          constructor
          · dsimp [resultSys]
            rw [hserr]
          · intro hng
            refine ⟨?_, ?_, ?_⟩
            · dsimp [resultSys]
              rw [hev]
            · dsimp [resultSys]
              rw [hev]
            · intro rep sys1 hret
              injection hret with a b
              left
              rw [← a]
              rfl
        · have hx2 : isExcClass r.ename = false := by simpa using hx
          rw [analyze_raised_base_eq src sys0 env evs r hg hserr he hx2]
          constructor
          · dsimp [resultSys]
            rw [hserr]
          · intro hng
            refine ⟨?_, ?_, ?_⟩
            · dsimp [resultSys]
              rw [hev]
            · dsimp [resultSys]
              rw [hev]
            · intro rep sys1 hret
              exact (AnalyzeResult.noConfusion hret)

/-- Witness for C10: text that writes oops to stderr and prints ok — the
stderr binding is preserved, the stderr device receives exactly oops, and
the capture buffer holds exactly the printed line. -/
theorem c10_witness :
    (resultSys (analyze_code errSrc sys0c)).serr = Sink.serrDev ∧
    (resultSys (analyze_code errSrc sys0c)).errDev =
      "" ++ errText (eventsOf errSrc) ∧
    (resultSys (analyze_code errSrc sys0c)).buf = outText (eventsOf errSrc) :=
  have h := c10_stderr_never_redirected_or_captured errSrc sys0c rfl
  ⟨h.1, (h.2 (by decide)).1, (h.2 (by decide)).2.1⟩

end BugFinder
